import Mathlib

/-!
Shallow embedding of `src/database_setup.py`, the AJE database-setup script:
the extract / load / validate pipeline over in-memory dataframes.

Modelling conventions:
* A pandas `DataFrame` is a list of column names together with labelled rows
  (the label models the pandas index; `read_excel` yields labels `0, 1, ...`).
* A cell is a `Val`: a string, an integer (numbers are modelled as integers,
  their exact arithmetic plays no role in the claims), or `Val.na` for a
  missing value (pandas `NaN`).
* `df[[c1, ..., ck]]` raises `KeyError` when a column is absent, so projection
  returns an `Option`; all other frame operations used by the script are total.
  Projection returns a fresh frame (pandas column-list indexing copies), and
  every later column assignment in the script targets one of the candidate
  frames, never the source frame; `extractRun` threads the source frame
  explicitly so that this frame condition is a provable statement.
* `to_sql` and SQL count queries are external collaborators: they are
  parameters of type `Store` / `QueryFn` returning `Except`, modelling the
  Python calls that either return or raise.
-/

/-- A cell value of the flat source sheet. -/
inductive Val where
  | str : String → Val
  | int : Int → Val
  | na : Val
deriving DecidableEq

/-- A dataframe: column names plus rows.  Each row is an index label
(`Nat`, as produced by `read_excel`) together with the list of cell values,
positionally parallel to `cols`. -/
structure DataFrame where
  cols : List String
  rows : List (Nat × List Val)
deriving DecidableEq

/-- Value of column `c` in a row, given the frame's column list
(`Val.na` when the column is absent; the script never reads an absent
column: every such access is guarded by an `in df.columns` test). -/
def valAt (cols : List String) (row : List Val) (c : String) : Val :=
  match cols.findIdx? (fun x => x == c) with
  | some i => row.getD i Val.na
  | none => Val.na

/-- One projected row: the selected columns of a source row, in selection
order. -/
def projectRow (cols : List String) (row : List Val) (sel : List String) : List Val :=
  sel.map (fun c => valAt cols row c)

/-- `df[[c1, ..., ck]]`: project onto the selected columns.  `none` models the
`KeyError` pandas raises when a selected column is absent from the frame. -/
def project (df : DataFrame) (sel : List String) : Option DataFrame :=
  if sel.all (fun c => df.cols.contains c) then
    some ⟨sel, df.rows.map (fun r => (r.1, projectRow df.cols r.2 sel))⟩
  else none

/-- `df.dropna(subset=[c])`: keep the rows whose value in column `c` is not
missing. -/
def dropnaOn (df : DataFrame) (c : String) : DataFrame :=
  ⟨df.cols, df.rows.filter (fun r => !(valAt df.cols r.2 c == Val.na))⟩

/-- Row-level first-occurrence deduplication: `seen` accumulates the value
parts already emitted; a row is kept iff its value part was not seen before. -/
def dedupRows : List (Nat × List Val) → List (List Val) → List (Nat × List Val)
  | [], _ => []
  | r :: rs, seen =>
    if seen.contains r.2 then dedupRows rs seen
    else r :: dedupRows rs (r.2 :: seen)

/-- `df.drop_duplicates()`: keep the first occurrence of each full-row value,
preserving order (pandas default `keep='first'`). -/
def drop_duplicates (df : DataFrame) : DataFrame :=
  ⟨df.cols, dedupRows df.rows []⟩

/-- `df.rename(columns={...})`: relabel the matching column names; rows are
untouched. -/
def renameCols (df : DataFrame) (m : List (String × String)) : DataFrame :=
  ⟨df.cols.map (fun c =>
    match m.find? (fun p => p.1 == c) with
    | some p => p.2
    | none => c), df.rows⟩

/-- Value of a labelled series at index label `i` (`Val.na` when the label is
absent, as pandas alignment fills `NaN`). -/
def seriesAt (s : List (Nat × Val)) (i : Nat) : Val :=
  match s.find? (fun p => p.1 == i) with
  | some p => p.2
  | none => Val.na

/-- `df[c]` as a labelled series. -/
def colSeries (df : DataFrame) (c : String) : List (Nat × Val) :=
  match df.cols.findIdx? (fun x => x == c) with
  | some i => df.rows.map (fun r => (r.1, r.2.getD i Val.na))
  | none => []

/-- `df[c] = series`: overwrite column `c` when present, otherwise append it;
the assigned values are aligned by index label. -/
def assignSeries (df : DataFrame) (c : String) (s : List (Nat × Val)) : DataFrame :=
  match df.cols.findIdx? (fun x => x == c) with
  | some j => ⟨df.cols, df.rows.map (fun r => (r.1, r.2.set j (seriesAt s r.1)))⟩
  | none => ⟨df.cols ++ [c], df.rows.map (fun r => (r.1, r.2 ++ [seriesAt s r.1]))⟩

/-- `df[c] = v` for a scalar `v`: overwrite column `c` when present, otherwise
append it, broadcasting `v` to every row. -/
def assignConst (df : DataFrame) (c : String) (v : Val) : DataFrame :=
  match df.cols.findIdx? (fun x => x == c) with
  | some j => ⟨df.cols, df.rows.map (fun r => (r.1, r.2.set j v))⟩
  | none => ⟨df.cols ++ [c], df.rows.map (fun r => (r.1, r.2 ++ [v]))⟩

/-- Lookup in a string-keyed association list (a Python `dict` whose keys are
inserted without collision). -/
def alist_find {β : Type} (l : List (String × β)) (n : String) : Option β :=
  (l.find? (fun p => p.1 == n)).map Prod.snd

/-! ### The eleven candidate-table constructions of `extract_table_data`
(`src/database_setup.py` lines 77-159), one definition per table, each
mirroring the corresponding statement block of the source. -/

/-- Lines 80-83. -/
def mk_tipo_documento (df : DataFrame) : Option DataFrame :=
  (project df ["id_tipo_documento", "nombre", "descripcion"]).map (fun t =>
    renameCols (drop_duplicates (dropnaOn t "id_tipo_documento"))
      [("nombre", "nombre"), ("descripcion", "descripcion")])

/-- Lines 86-89. -/
def mk_canal_cliente (df : DataFrame) : Option DataFrame :=
  (project df ["id_canal_cliente", "nombre.1", "descripcion.1"]).map (fun t =>
    renameCols (drop_duplicates (dropnaOn t "id_canal_cliente"))
      [("nombre.1", "nombre"), ("descripcion.1", "descripcion")])

/-- Lines 92-95. -/
def mk_tipo_pago (df : DataFrame) : Option DataFrame :=
  (project df ["id_tipo_pago", "nombre_tipo_pago", "descripcion.2"]).map (fun t =>
    renameCols (drop_duplicates (dropnaOn t "id_tipo_pago"))
      [("descripcion.2", "descripcion")])

/-- Lines 98-101. -/
def mk_cargo_trabajador (df : DataFrame) : Option DataFrame :=
  (project df ["id_cargo_trabajador", "nombre.2", "descripcion.4"]).map (fun t =>
    renameCols (drop_duplicates (dropnaOn t "id_cargo_trabajador"))
      [("nombre.2", "nombre_cargo"), ("descripcion.4", "descripcion")])

/-- Lines 104-107: the extra `descripcion` column copies the candidate's own
`nombre_marca` column (index-aligned assignment of a series to itself). -/
def mk_marca_producto (df : DataFrame) : Option DataFrame :=
  (project df ["id_marca_producto", "nombre_marca"]).map (fun t =>
    let t := drop_duplicates (dropnaOn t "id_marca_producto")
    assignSeries t "descripcion" (colSeries t "nombre_marca"))

/-- Lines 110-113. -/
def mk_categoria_producto (df : DataFrame) : Option DataFrame :=
  (project df ["id_categoria_producto", "nombre_categoria", "descripcion.5"]).map (fun t =>
    renameCols (drop_duplicates (dropnaOn t "id_categoria_producto"))
      [("descripcion.5", "descripcion")])

/-- Lines 116-124: constant default `apellidos = ''`. -/
def mk_trabajador (df : DataFrame) : Option DataFrame :=
  (project df ["id_trabajador", "nombre trabajador", "correo", "telefono.1",
      "id_cargo_trabajador"]).map (fun t =>
    let t := renameCols (drop_duplicates (dropnaOn t "id_trabajador"))
      [("nombre trabajador", "nombres"), ("correo", "email"), ("telefono.1", "telefono")]
    assignConst t "apellidos" (Val.str ""))

/-- Lines 127-133. -/
def mk_cliente (df : DataFrame) : Option DataFrame :=
  (project df ["id_cliente", "nombre_cliente", "numero_documento", "correo.1",
      "telefono.2", "direccion", "id_tipo_documento", "id_canal_cliente"]).map (fun t =>
    renameCols (drop_duplicates (dropnaOn t "id_cliente"))
      [("correo.1", "email"), ("telefono.2", "telefono")])

/-- Lines 136-142: `id_formato_producto` is added only when the source has a
`codigo_formato_producto` column, aligned to the candidate by index label. -/
def mk_producto (df : DataFrame) : Option DataFrame :=
  (project df ["id_producto", "descripcion.6", "precio", "id_marca_producto",
      "id_categoria_producto"]).map (fun t =>
    let t := renameCols (drop_duplicates (dropnaOn t "id_producto"))
      [("descripcion.6", "descripcion")]
    if df.cols.contains "codigo_formato_producto" then
      assignSeries t "id_formato_producto" (colSeries df "codigo_formato_producto")
    else t)

/-- Lines 145-147. -/
def mk_pedido (df : DataFrame) : Option DataFrame :=
  (project df ["id_pedido", "id_trabajador", "id_cliente", "id_tipo_pago",
      "fecha", "monto_total"]).map (fun t =>
    drop_duplicates (dropnaOn t "id_pedido"))

/-- Lines 150-157: `id_promocion` is added only when present in the source;
`descuento = 0` is always added. -/
def mk_detalle_pedido (df : DataFrame) : Option DataFrame :=
  (project df ["id_detalle_pedido", "id_pedido", "id_producto", "cantidad",
      "precio_unitario"]).map (fun t =>
    let t := drop_duplicates (dropnaOn t "id_detalle_pedido")
    let t := if df.cols.contains "id_promocion" then
        assignSeries t "id_promocion" (colSeries df "id_promocion")
      else t
    assignConst t "descuento" (Val.int 0))

/-- The mutable state visible to `extract_table_data`: the source frame `df`
and the `tables` dictionary being filled. -/
structure ExtractState where
  df : DataFrame
  tables : List (String × DataFrame)
deriving DecidableEq

/-- `extract_table_data` (lines 67-159) as a state transformer: every
statement of the Python function either computes a candidate frame from the
source or writes into the `tables` dictionary; the source frame itself is
only ever read. -/
def extractRun (s : ExtractState) : Option ExtractState :=
  (mk_tipo_documento s.df).bind fun tipo_documento =>
  (mk_canal_cliente s.df).bind fun canal_cliente =>
  (mk_tipo_pago s.df).bind fun tipo_pago =>
  (mk_cargo_trabajador s.df).bind fun cargo_trabajador =>
  (mk_marca_producto s.df).bind fun marca_producto =>
  (mk_categoria_producto s.df).bind fun categoria_producto =>
  (mk_trabajador s.df).bind fun trabajador =>
  (mk_cliente s.df).bind fun cliente =>
  (mk_producto s.df).bind fun producto =>
  (mk_pedido s.df).bind fun pedido =>
  (mk_detalle_pedido s.df).bind fun detalle_pedido =>
  some { df := s.df, tables := s.tables ++ [
    ("tipo_documento", tipo_documento), ("canal_cliente", canal_cliente),
    ("tipo_pago", tipo_pago), ("cargo_trabajador", cargo_trabajador),
    ("marca_producto", marca_producto), ("categoria_producto", categoria_producto),
    ("trabajador", trabajador), ("cliente", cliente), ("producto", producto),
    ("pedido", pedido), ("detalle_pedido", detalle_pedido)] }

/-- `extract_table_data(df)`: run the extraction on a fresh `tables`
dictionary and return it.  `none` models a `KeyError` escaping (a required
source column absent). -/
def extract_table_data (df : DataFrame) : Option (List (String × DataFrame)) :=
  (extractRun { df := df, tables := [] }).map ExtractState.tables

/-! ### The specification's reference extraction pipeline -/

/-- First-occurrence deduplication on plain value rows, used by the
specification's reference pipeline. -/
def firstSeenDedup (seen : List (List Val)) : List (List Val) → List (List Val)
  | [] => []
  | r :: rs =>
    if seen.contains r then firstSeenDedup seen rs
    else r :: firstSeenDedup (r :: seen) rs

/-- The reference pipeline of the specification, stated from its words:
project each source record onto the table's declared columns, drop every
projected record whose primary-identifying column is empty/missing, then
deduplicate the remaining records by full equality of all projected columns
keeping the first occurrence, listing survivors in first-seen source order. -/
def specExtract (df : DataFrame) (sel : List String) (idc : String) : List (List Val) :=
  firstSeenDedup []
    ((df.rows.map (fun r => projectRow df.cols r.2 sel)).filter
      (fun row => !(valAt sel row idc == Val.na)))

/-- For each target table: its name, the source columns projected for it, and
its primary-identifying source column. -/
def tableSpecs : List (String × List String × String) := [
  ("tipo_documento", (["id_tipo_documento", "nombre", "descripcion"], "id_tipo_documento")),
  ("canal_cliente", (["id_canal_cliente", "nombre.1", "descripcion.1"], "id_canal_cliente")),
  ("tipo_pago", (["id_tipo_pago", "nombre_tipo_pago", "descripcion.2"], "id_tipo_pago")),
  ("cargo_trabajador", (["id_cargo_trabajador", "nombre.2", "descripcion.4"], "id_cargo_trabajador")),
  ("marca_producto", (["id_marca_producto", "nombre_marca"], "id_marca_producto")),
  ("categoria_producto", (["id_categoria_producto", "nombre_categoria", "descripcion.5"], "id_categoria_producto")),
  ("trabajador", (["id_trabajador", "nombre trabajador", "correo", "telefono.1",
    "id_cargo_trabajador"], "id_trabajador")),
  ("cliente", (["id_cliente", "nombre_cliente", "numero_documento", "correo.1",
    "telefono.2", "direccion", "id_tipo_documento", "id_canal_cliente"], "id_cliente")),
  ("producto", (["id_producto", "descripcion.6", "precio", "id_marca_producto",
    "id_categoria_producto"], "id_producto")),
  ("pedido", (["id_pedido", "id_trabajador", "id_cliente", "id_tipo_pago",
    "fecha", "monto_total"], "id_pedido")),
  ("detalle_pedido", (["id_detalle_pedido", "id_pedido", "id_producto", "cantidad",
    "precio_unitario"], "id_detalle_pedido"))]

/-! ### The loader (`load_data_to_database`, lines 161-218) -/

/-- Per-table load outcome: the Python code stores either a success string
with the row count or an error string with the exception text. -/
inductive LoadResult where
  | ok : Nat → LoadResult
  | err : String → LoadResult
deriving DecidableEq

/-- The store's batched-insert collaborator (`to_sql`): succeeds or raises. -/
abbrev Store := String → DataFrame → Except String Unit

/-- The fixed load order of the loader (lines 174-186). -/
def load_order : List String := [
  "tipo_documento", "canal_cliente", "tipo_pago", "cargo_trabajador",
  "marca_producto", "categoria_producto", "trabajador", "cliente",
  "producto", "pedido", "detalle_pedido"]

/-- `df.drop(columns=[c])`: remove every column labelled `c`, and the
corresponding cell of each row. -/
def dropColumn (df : DataFrame) (c : String) : DataFrame :=
  ⟨df.cols.filter (fun x => !(x == c)),
   df.rows.map (fun r =>
     (r.1, ((df.cols.zip r.2).filter (fun p => !(p.1 == c))).map Prod.snd))⟩

/-- Lines 195-198: drop the `id_<table>` column when the candidate has it. -/
def stripId (name : String) (df : DataFrame) : DataFrame :=
  let id_column := "id_" ++ name
  if df.cols.contains id_column then dropColumn df id_column else df

/-- Outcome recorded for one table: a success count (`len(df_table)`) when the
insert returns, the exception text otherwise (lines 211, 215). -/
def insertResult (n : Nat) : Except String Unit → LoadResult
  | .ok _ => .ok n
  | .error _e => .err _e

/-- The loader's loop over a list of table names (the body of lines 190-216):
skip tables with no candidate, strip the id column, insert, record the
outcome, and always continue with the next table. -/
def loadTables (store : Store) (tables_data : List (String × DataFrame)) :
    List String → List (String × LoadResult)
  | [] => []
  | name :: rest =>
    match alist_find tables_data name with
    | none => loadTables store tables_data rest
    | some t =>
      let d := stripId name t
      (name, insertResult d.rows.length (store name d)) :: loadTables store tables_data rest

/-- `load_data_to_database(tables_data, engine)`. -/
def load_data_to_database (tables_data : List (String × DataFrame)) (store : Store) :
    List (String × LoadResult) :=
  loadTables store tables_data load_order

/-! ### The validator (`validate_data_integrity`, lines 220-247) -/

/-- Per-table validation outcome: a row count or the error text. -/
inductive CountResult where
  | count : Nat → CountResult
  | err : String → CountResult
deriving DecidableEq

/-- The store's count-query collaborator: returns a count or raises. -/
abbrev QueryFn := String → Except String Nat

/-- The hardcoded list of tables the validator queries (lines 230-233). -/
def tables_to_check : List String := [
  "G2.cliente", "G2.trabajador", "G2.producto", "G2.pedido", "G2.detalle_pedido"]

/-- `validate_data_integrity(engine)`: one count query per listed table; a
query failure is recorded as an error value and the loop continues. -/
def validate_data_integrity (query : QueryFn) : List (String × CountResult) :=
  tables_to_check.map (fun table =>
    (table, match query table with
      | .ok n => CountResult.count n
      | .error e => CountResult.err e))

/-! ### The target schema (`schema_sql`, lines 258-396) -/

/-- The tables created by the DDL, in declaration order. -/
def schema_tables : List String := [
  "tipo_documento", "canal_cliente", "tipo_pago", "cargo_trabajador",
  "marca_producto", "categoria_producto", "formato_producto", "trabajador",
  "cliente", "producto", "tipo_promocion", "promocion", "pedido", "detalle_pedido"]

/-- The foreign-key edges of the DDL, as (referencing table, referenced
table) pairs, transcribed from the `FOREIGN KEY ... REFERENCES` clauses. -/
def schema_fks : List (String × String) := [
  ("trabajador", "cargo_trabajador"),
  ("cliente", "tipo_documento"), ("cliente", "canal_cliente"),
  ("producto", "marca_producto"), ("producto", "categoria_producto"),
  ("producto", "formato_producto"),
  ("promocion", "tipo_promocion"),
  ("pedido", "trabajador"), ("pedido", "cliente"), ("pedido", "tipo_pago"),
  ("detalle_pedido", "pedido"), ("detalle_pedido", "producto"),
  ("detalle_pedido", "promocion")]

/-- Position of a table name in the load order (`load_order.length` when
absent). -/
def loadPos (n : String) : Nat := load_order.findIdx (fun x => x == n)

/-! ### Concrete data for witnesses and counterexamples -/

/-- A concrete source frame holding every column the mappings require (the
36 columns `extract_table_data` projects) and neither optional column
(`codigo_formato_producto`, `id_promocion`); two source rows sharing all
reference-table values but describing two distinct clients, orders and order
lines. -/
def sampleDf : DataFrame :=
  ⟨["id_tipo_documento", "nombre", "descripcion", "id_canal_cliente", "nombre.1",
    "descripcion.1", "id_tipo_pago", "nombre_tipo_pago", "descripcion.2",
    "id_cargo_trabajador", "nombre.2", "descripcion.4", "id_marca_producto",
    "nombre_marca", "id_categoria_producto", "nombre_categoria", "descripcion.5",
    "id_trabajador", "nombre trabajador", "correo", "telefono.1", "id_cliente",
    "nombre_cliente", "numero_documento", "correo.1", "telefono.2", "direccion",
    "id_producto", "descripcion.6", "precio", "id_pedido", "fecha", "monto_total",
    "id_detalle_pedido", "cantidad", "precio_unitario"],
   [(0, [Val.int 1, Val.str "DNI", Val.str "doc", Val.int 1, Val.str "bodega",
      Val.str "canal", Val.int 1, Val.str "efectivo", Val.str "pago", Val.int 1,
      Val.str "vendedor", Val.str "cargo", Val.int 1, Val.str "Cielo", Val.int 1,
      Val.str "agua", Val.str "cat", Val.int 1, Val.str "Ana", Val.str "a@x",
      Val.int 911, Val.int 1, Val.str "Luis", Val.str "123", Val.str "l@x",
      Val.int 922, Val.str "Jr 1", Val.int 1, Val.str "agua 1L", Val.int 2,
      Val.int 1, Val.str "2025-01-01", Val.int 10, Val.int 1, Val.int 5, Val.int 2]),
    (1, [Val.int 1, Val.str "DNI", Val.str "doc", Val.int 1, Val.str "bodega",
      Val.str "canal", Val.int 1, Val.str "efectivo", Val.str "pago", Val.int 1,
      Val.str "vendedor", Val.str "cargo", Val.int 1, Val.str "Cielo", Val.int 1,
      Val.str "agua", Val.str "cat", Val.int 1, Val.str "Ana", Val.str "a@x",
      Val.int 911, Val.int 2, Val.str "Rosa", Val.str "456", Val.str "r@x",
      Val.int 933, Val.str "Jr 2", Val.int 1, Val.str "agua 1L", Val.int 2,
      Val.int 2, Val.str "2025-01-02", Val.int 20, Val.int 2, Val.int 1, Val.int 2])]⟩

/-- The candidate datasets extracted from `sampleDf`. -/
def sampleTables : List (String × DataFrame) := (extract_table_data sampleDf).getD []

/-- The state left by running the extraction on `sampleDf`. -/
def sampleState : ExtractState :=
  (extractRun { df := sampleDf, tables := [] }).getD { df := sampleDf, tables := [] }

/-- The `detalle_pedido` candidate extracted from `sampleDf`. -/
def sampleDetalle : Option DataFrame :=
  (extract_table_data sampleDf).bind (fun ts => alist_find ts "detalle_pedido")

/-- The `producto` candidate extracted from `sampleDf`. -/
def sampleProducto : Option DataFrame :=
  (extract_table_data sampleDf).bind (fun ts => alist_find ts "producto")

/-- A small candidate mapping for exercising the loader. -/
def wCliente : DataFrame :=
  ⟨["id_cliente", "nombre_cliente"], [(0, [Val.int 1, Val.str "Luis"])]⟩

def wProducto : DataFrame :=
  ⟨["id_producto", "descripcion"], [(0, [Val.int 1, Val.str "agua"])]⟩

def wPedido : DataFrame :=
  ⟨["id_pedido", "monto_total"], [(0, [Val.int 1, Val.int 10])]⟩

def wTables : List (String × DataFrame) :=
  [("cliente", wCliente), ("producto", wProducto), ("pedido", wPedido)]

/-- A store whose insert fails exactly for `producto`. -/
def wStore : Store := fun n _ =>
  if n == "producto" then Except.error "type error" else Except.ok ()

/-- A count query that fails exactly for `G2.producto`. -/
def qFail : QueryFn := fun t =>
  if t == "G2.producto" then Except.error "down" else Except.ok 7

/-! ## Helper lemmas -/

theorem sample_run_eq : extractRun { df := sampleDf, tables := [] } = some sampleState := by
  decide

theorem sample_extract_eq : extract_table_data sampleDf = some sampleTables := by
  simp [sampleTables, extract_table_data, sample_run_eq]

theorem loadTables_keys (store : Store) (td : List (String × DataFrame)) :
    ∀ names : List String, (loadTables store td names).map Prod.fst =
      names.filter (fun n => (alist_find td n).isSome) := by
  intro names
  induction names with
  | nil => rfl
  | cons n rest ih =>
    cases h : alist_find td n with
    | none => simp [loadTables, h, ih, List.filter_cons]
    | some t => simp [loadTables, h, ih, List.filter_cons]

theorem loadTables_err_mem (store : Store) (td : List (String × DataFrame))
    (n : String) (t : DataFrame) (e : String) (hf : alist_find td n = some t)
    (hs : store n (stripId n t) = Except.error e) :
    ∀ names : List String, n ∈ names → (n, LoadResult.err e) ∈ loadTables store td names := by
  intro names hn
  induction names with
  | nil => cases hn
  | cons m rest ih =>
    rcases List.mem_cons.mp hn with h | hmem
    · subst h
      simp [loadTables, hf, hs, insertResult]
    · cases h : alist_find td m with
      | none => simpa [loadTables, h] using ih hmem
      | some t' => simp [loadTables, h]; exact Or.inr (ih hmem)

theorem loadTables_lookup (store : Store) (td : List (String × DataFrame))
    (n : String) (t : DataFrame) (hf : alist_find td n = some t) :
    ∀ names : List String, n ∈ names →
      alist_find (loadTables store td names) n =
        some (insertResult (stripId n t).rows.length (store n (stripId n t))) := by
  intro names hn
  induction names with
  | nil => cases hn
  | cons m rest ih =>
    by_cases hm : m = n
    · subst hm
      simp only [loadTables, hf]
      unfold alist_find
      rw [List.find?_cons_of_pos _ (by simp)]
      rfl
    · have hmem : n ∈ rest := by
        rcases List.mem_cons.mp hn with h | hmem
        · exact absurd h.symm hm
        · exact hmem
      cases h : alist_find td m with
      | none =>
        simp only [loadTables, h]
        exact ih hmem
      | some t' =>
        simp only [loadTables, h]
        have := ih hmem
        unfold alist_find at this ⊢
        rw [List.find?_cons_of_neg _ (by simp [hm])]
        exact this

theorem alist_find_map_self {β : Type} (g : String → β) :
    ∀ (l : List String) (t : String), t ∈ l →
      alist_find (l.map (fun x => (x, g x))) t = some (g t) := by
  intro l
  induction l with
  | nil => intro t ht; cases ht
  | cons a rest ih =>
    intro t ht
    by_cases h : a = t
    · subst h
      simp only [List.map_cons]
      unfold alist_find
      rw [List.find?_cons_of_pos _ (by simp)]
      rfl
    · have hmem : t ∈ rest := by
        rcases List.mem_cons.mp ht with h' | hmem
        · exact absurd h'.symm h
        · exact hmem
      simp only [List.map_cons]
      have := ih t hmem
      unfold alist_find at this ⊢
      rw [List.find?_cons_of_neg _ (by simp [h])]
      exact this

theorem extract_elim (df : DataFrame) (ts : List (String × DataFrame))
    (h : extract_table_data df = some ts) :
    ∃ t1 t2 t3 t4 t5 t6 t7 t8 t9 t10 t11,
      mk_tipo_documento df = some t1 ∧ mk_canal_cliente df = some t2 ∧
      mk_tipo_pago df = some t3 ∧ mk_cargo_trabajador df = some t4 ∧
      mk_marca_producto df = some t5 ∧ mk_categoria_producto df = some t6 ∧
      mk_trabajador df = some t7 ∧ mk_cliente df = some t8 ∧
      mk_producto df = some t9 ∧ mk_pedido df = some t10 ∧
      mk_detalle_pedido df = some t11 ∧
      ts = [("tipo_documento", t1), ("canal_cliente", t2), ("tipo_pago", t3),
        ("cargo_trabajador", t4), ("marca_producto", t5), ("categoria_producto", t6),
        ("trabajador", t7), ("cliente", t8), ("producto", t9), ("pedido", t10),
        ("detalle_pedido", t11)] := by
  unfold extract_table_data at h
  obtain ⟨s', hrun, hts⟩ := Option.map_eq_some'.mp h
  unfold extractRun at hrun
  obtain ⟨t1, h1, hrun⟩ := Option.bind_eq_some.mp hrun
  obtain ⟨t2, h2, hrun⟩ := Option.bind_eq_some.mp hrun
  obtain ⟨t3, h3, hrun⟩ := Option.bind_eq_some.mp hrun
  obtain ⟨t4, h4, hrun⟩ := Option.bind_eq_some.mp hrun
  obtain ⟨t5, h5, hrun⟩ := Option.bind_eq_some.mp hrun
  obtain ⟨t6, h6, hrun⟩ := Option.bind_eq_some.mp hrun
  obtain ⟨t7, h7, hrun⟩ := Option.bind_eq_some.mp hrun
  obtain ⟨t8, h8, hrun⟩ := Option.bind_eq_some.mp hrun
  obtain ⟨t9, h9, hrun⟩ := Option.bind_eq_some.mp hrun
  obtain ⟨t10, h10, hrun⟩ := Option.bind_eq_some.mp hrun
  obtain ⟨t11, h11, hrun⟩ := Option.bind_eq_some.mp hrun
  have hs := Option.some.inj hrun
  subst hs
  exact ⟨t1, t2, t3, t4, t5, t6, t7, t8, t9, t10, t11, h1, h2, h3, h4, h5, h6, h7, h8,
    h9, h10, h11, by simpa using hts.symm⟩

theorem project_eq_some {df : DataFrame} {sel : List String} {p : DataFrame}
    (h : project df sel = some p) :
    p = ⟨sel, df.rows.map (fun r => (r.1, projectRow df.cols r.2 sel))⟩ := by
  unfold project at h
  split at h
  · exact (Option.some.inj h).symm
  · cases h

theorem mapSnd_filter (l : List (Nat × List Val)) (qp : Nat × List Val → Bool)
    (q : List Val → Bool) (hq : ∀ r, qp r = q r.2) :
    (l.filter qp).map Prod.snd = (l.map Prod.snd).filter q := by
  induction l with
  | nil => rfl
  | cons a rest ih =>
    rw [List.filter_cons, List.map_cons, List.filter_cons, ← hq a]
    cases hqa : qp a <;> simp [hqa, ih]

theorem dedup_mapSnd : ∀ (l : List (Nat × List Val)) (seen : List (List Val)),
    (dedupRows l seen).map Prod.snd = firstSeenDedup seen (l.map Prod.snd) := by
  intro l
  induction l with
  | nil => intro seen; rfl
  | cons a rest ih =>
    intro seen
    by_cases hm : a.2 ∈ seen
    · simp [dedupRows, firstSeenDedup, hm, ih]
    · simp [dedupRows, firstSeenDedup, hm, ih]

theorem dedup_mem : ∀ (l : List (Nat × List Val)) (seen : List (List Val))
    (r : Nat × List Val), r ∈ dedupRows l seen → r ∈ l := by
  intro l
  induction l with
  | nil => intro seen r h; cases h
  | cons a rest ih =>
    intro seen r h
    by_cases hm : a.2 ∈ seen
    · simp [dedupRows, hm] at h
      exact List.mem_cons_of_mem a (ih seen r h)
    · simp [dedupRows, hm] at h
      rcases h with h | h
      · simp [h]
      · exact List.mem_cons_of_mem a (ih _ r h)

theorem core_lists (lrows : List (Nat × List Val)) (qp : Nat × List Val → Bool)
    (q : List Val → Bool) (hq : ∀ r, qp r = q r.2) :
    (dedupRows (lrows.filter qp) []).map Prod.snd =
      firstSeenDedup [] ((lrows.map Prod.snd).filter q) := by
  rw [dedup_mapSnd, mapSnd_filter _ _ _ hq]

theorem take_len_self (xs : List Val) (n : Nat) (h : xs.length = n) : xs.take n = xs := by
  subst h
  exact List.take_length ..

theorem take_append_le (xs ys : List Val) (n : Nat) (h : n ≤ xs.length) :
    (xs ++ ys).take n = xs.take n :=
  List.take_append_of_le_length h

theorem getD_append_len (xs : List Val) (v d : Val) (n : Nat) (h : xs.length = n) :
    (xs ++ [v]).getD n d = v := by
  subst h
  induction xs with
  | nil => rfl
  | cons a rest ih =>
    simp only [List.cons_append, List.length_cons, List.getD_cons_succ]
    exact ih

theorem map_take_eq_mapSnd (l : List (Nat × List Val)) (n : Nat)
    (hlen : ∀ r ∈ l, r.2.length = n) :
    l.map (fun r => r.2.take n) = l.map Prod.snd := by
  induction l with
  | nil => rfl
  | cons a rest ih =>
    simp only [List.map_cons]
    rw [take_len_self a.2 n (hlen a (by simp))]
    rw [ih (fun r hr => hlen r (by simp [hr]))]

theorem map_take_assign (l : List (Nat × List Val)) (n : Nat) (g : Nat → Val)
    (hlen : ∀ r ∈ l, n ≤ r.2.length) :
    (l.map (fun r => (r.1, r.2 ++ [g r.1]))).map (fun r => r.2.take n) =
      l.map (fun r => r.2.take n) := by
  induction l with
  | nil => rfl
  | cons a rest ih =>
    simp only [List.map_cons]
    rw [ih (fun r hr => hlen r (by simp [hr]))]
    congr 1
    exact take_append_le a.2 [g a.1] n (hlen a (by simp))

theorem assign_rows_le (l : List (Nat × List Val)) (n : Nat) (g : Nat → Val)
    (hlen : ∀ r ∈ l, n ≤ r.2.length) :
    ∀ r ∈ l.map (fun r => (r.1, r.2 ++ [g r.1])), n ≤ r.2.length := by
  intro r hr
  obtain ⟨x, hx, rfl⟩ := List.mem_map.mp hr
  have h1 := hlen x hx
  have h2 : ((x.1, x.2 ++ [g x.1]) : Nat × List Val).2.length = x.2.length + 1 := by simp
  omega

theorem assignConst_new_rows (t : DataFrame) (c : String) (v : Val)
    (hc : t.cols.findIdx? (fun x => x == c) = none) :
    (assignConst t c v).rows = t.rows.map (fun r => (r.1, r.2 ++ [v])) := by
  unfold assignConst
  rw [hc]

theorem assignSeries_new_rows (t : DataFrame) (c : String) (s : List (Nat × Val))
    (hc : t.cols.findIdx? (fun x => x == c) = none) :
    (assignSeries t c s).rows = t.rows.map (fun r => (r.1, r.2 ++ [seriesAt s r.1])) := by
  unfold assignSeries
  rw [hc]

theorem assignConst_new_cols (t : DataFrame) (c : String) (v : Val)
    (hc : t.cols.findIdx? (fun x => x == c) = none) :
    (assignConst t c v).cols = t.cols ++ [c] := by
  unfold assignConst
  rw [hc]

theorem assignSeries_new_cols (t : DataFrame) (c : String) (s : List (Nat × Val))
    (hc : t.cols.findIdx? (fun x => x == c) = none) :
    (assignSeries t c s).cols = t.cols ++ [c] := by
  unfold assignSeries
  rw [hc]

theorem core_rows (df : DataFrame) (sel : List String) (idc : String) (p : DataFrame)
    (hp : project df sel = some p) :
    ((drop_duplicates (dropnaOn p idc)).rows.map Prod.snd = specExtract df sel idc) ∧
    (∀ r ∈ (drop_duplicates (dropnaOn p idc)).rows, r.2.length = sel.length) := by
  have hpe := project_eq_some hp
  subst hpe
  constructor
  · show (dedupRows ((df.rows.map (fun r => (r.1, projectRow df.cols r.2 sel))).filter
        (fun r => !(valAt sel r.2 idc == Val.na))) []).map Prod.snd = specExtract df sel idc
    rw [core_lists _ _ (fun row => !(valAt sel row idc == Val.na)) (fun r => rfl)]
    rw [List.map_map]
    rfl
  · intro r hr
    have hr' : r ∈ dedupRows ((df.rows.map (fun r => (r.1, projectRow df.cols r.2 sel))).filter
        (fun r => !(valAt sel r.2 idc == Val.na))) [] := hr
    have h1 := dedup_mem _ _ r hr'
    have h2 := (List.mem_filter.mp h1).1
    obtain ⟨x, hx, rfl⟩ := List.mem_map.mp h2
    simp [projectRow]

theorem plain_take (df : DataFrame) (sel : List String) (idc : String) (p : DataFrame)
    (hp : project df sel = some p) :
    (drop_duplicates (dropnaOn p idc)).rows.map (fun r => r.2.take sel.length) =
      specExtract df sel idc := by
  have hc := core_rows df sel idc p hp
  rw [map_take_eq_mapSnd _ _ hc.2]
  exact hc.1

theorem renamed_take (df : DataFrame) (sel : List String) (idc : String)
    (rn : List (String × String)) (p : DataFrame) (hp : project df sel = some p) :
    (renameCols (drop_duplicates (dropnaOn p idc)) rn).rows.map
      (fun r => r.2.take sel.length) = specExtract df sel idc := by
  show (drop_duplicates (dropnaOn p idc)).rows.map (fun r => r.2.take sel.length) = _
  exact plain_take df sel idc p hp

theorem assign_const_take (t : DataFrame) (c : String) (v : Val) (n : Nat)
    (hfind : t.cols.findIdx? (fun x => x == c) = none)
    (hlen : ∀ r ∈ t.rows, n ≤ r.2.length) :
    (assignConst t c v).rows.map (fun r => r.2.take n) =
      t.rows.map (fun r => r.2.take n) := by
  rw [assignConst_new_rows t c v hfind]
  exact map_take_assign t.rows n (fun _i => v) hlen

theorem assign_series_take (t : DataFrame) (c : String) (s : List (Nat × Val)) (n : Nat)
    (hfind : t.cols.findIdx? (fun x => x == c) = none)
    (hlen : ∀ r ∈ t.rows, n ≤ r.2.length) :
    (assignSeries t c s).rows.map (fun r => r.2.take n) =
      t.rows.map (fun r => r.2.take n) := by
  rw [assignSeries_new_rows t c s hfind]
  exact map_take_assign t.rows n (seriesAt s) hlen

theorem mk_tipo_documento_take (df t : DataFrame) (h : mk_tipo_documento df = some t) :
    t.rows.map (fun r => r.2.take 3) =
      specExtract df ["id_tipo_documento", "nombre", "descripcion"] "id_tipo_documento" := by
  obtain ⟨p, hp, rfl⟩ := Option.map_eq_some'.mp h
  exact renamed_take df _ _ _ p hp

theorem mk_canal_cliente_take (df t : DataFrame) (h : mk_canal_cliente df = some t) :
    t.rows.map (fun r => r.2.take 3) =
      specExtract df ["id_canal_cliente", "nombre.1", "descripcion.1"] "id_canal_cliente" := by
  obtain ⟨p, hp, rfl⟩ := Option.map_eq_some'.mp h
  exact renamed_take df _ _ _ p hp

theorem mk_tipo_pago_take (df t : DataFrame) (h : mk_tipo_pago df = some t) :
    t.rows.map (fun r => r.2.take 3) =
      specExtract df ["id_tipo_pago", "nombre_tipo_pago", "descripcion.2"] "id_tipo_pago" := by
  obtain ⟨p, hp, rfl⟩ := Option.map_eq_some'.mp h
  exact renamed_take df _ _ _ p hp

theorem mk_cargo_trabajador_take (df t : DataFrame) (h : mk_cargo_trabajador df = some t) :
    t.rows.map (fun r => r.2.take 3) =
      specExtract df ["id_cargo_trabajador", "nombre.2", "descripcion.4"] "id_cargo_trabajador" := by
  obtain ⟨p, hp, rfl⟩ := Option.map_eq_some'.mp h
  exact renamed_take df _ _ _ p hp

theorem mk_categoria_producto_take (df t : DataFrame) (h : mk_categoria_producto df = some t) :
    t.rows.map (fun r => r.2.take 3) =
      specExtract df ["id_categoria_producto", "nombre_categoria", "descripcion.5"]
        "id_categoria_producto" := by
  obtain ⟨p, hp, rfl⟩ := Option.map_eq_some'.mp h
  exact renamed_take df _ _ _ p hp

theorem mk_cliente_take (df t : DataFrame) (h : mk_cliente df = some t) :
    t.rows.map (fun r => r.2.take 8) =
      specExtract df ["id_cliente", "nombre_cliente", "numero_documento", "correo.1",
        "telefono.2", "direccion", "id_tipo_documento", "id_canal_cliente"] "id_cliente" := by
  obtain ⟨p, hp, rfl⟩ := Option.map_eq_some'.mp h
  exact renamed_take df _ _ _ p hp

theorem mk_pedido_take (df t : DataFrame) (h : mk_pedido df = some t) :
    t.rows.map (fun r => r.2.take 6) =
      specExtract df ["id_pedido", "id_trabajador", "id_cliente", "id_tipo_pago",
        "fecha", "monto_total"] "id_pedido" := by
  obtain ⟨p, hp, rfl⟩ := Option.map_eq_some'.mp h
  exact plain_take df _ _ p hp

theorem mk_marca_producto_take (df t : DataFrame) (h : mk_marca_producto df = some t) :
    t.rows.map (fun r => r.2.take 2) =
      specExtract df ["id_marca_producto", "nombre_marca"] "id_marca_producto" := by
  obtain ⟨p, hp, rfl⟩ := Option.map_eq_some'.mp h
  have hc := core_rows df _ "id_marca_producto" p hp
  have hcols : (drop_duplicates (dropnaOn p "id_marca_producto")).cols =
      ["id_marca_producto", "nombre_marca"] := by
    rw [project_eq_some hp]; rfl
  have hfind : (drop_duplicates (dropnaOn p "id_marca_producto")).cols.findIdx?
      (fun x => x == "descripcion") = none := by
    rw [hcols]; rfl
  show (assignSeries (drop_duplicates (dropnaOn p "id_marca_producto")) "descripcion"
      (colSeries (drop_duplicates (dropnaOn p "id_marca_producto")) "nombre_marca")).rows.map
      (fun r => r.2.take 2) = _
  rw [assign_series_take _ _ _ 2 hfind (fun r hr => (hc.2 r hr).ge)]
  exact plain_take df _ _ p hp

theorem mk_trabajador_take (df t : DataFrame) (h : mk_trabajador df = some t) :
    t.rows.map (fun r => r.2.take 5) =
      specExtract df ["id_trabajador", "nombre trabajador", "correo", "telefono.1",
        "id_cargo_trabajador"] "id_trabajador" := by
  obtain ⟨p, hp, rfl⟩ := Option.map_eq_some'.mp h
  have hc := core_rows df _ "id_trabajador" p hp
  have hcols : (renameCols (drop_duplicates (dropnaOn p "id_trabajador"))
      [("nombre trabajador", "nombres"), ("correo", "email"), ("telefono.1", "telefono")]).cols =
      ["id_trabajador", "nombres", "email", "telefono", "id_cargo_trabajador"] := by
    rw [project_eq_some hp]; rfl
  have hfind : (renameCols (drop_duplicates (dropnaOn p "id_trabajador"))
      [("nombre trabajador", "nombres"), ("correo", "email"), ("telefono.1", "telefono")]).cols.findIdx?
      (fun x => x == "apellidos") = none := by
    rw [hcols]; rfl
  show (assignConst (renameCols (drop_duplicates (dropnaOn p "id_trabajador"))
      [("nombre trabajador", "nombres"), ("correo", "email"), ("telefono.1", "telefono")])
      "apellidos" (Val.str "")).rows.map (fun r => r.2.take 5) = _
  rw [assign_const_take _ _ _ 5 hfind (fun r hr => (hc.2 r hr).ge)]
  exact renamed_take df _ _ _ p hp

theorem mk_producto_take (df t : DataFrame) (h : mk_producto df = some t) :
    t.rows.map (fun r => r.2.take 5) =
      specExtract df ["id_producto", "descripcion.6", "precio", "id_marca_producto",
        "id_categoria_producto"] "id_producto" := by
  obtain ⟨p, hp, rfl⟩ := Option.map_eq_some'.mp h
  have hc := core_rows df _ "id_producto" p hp
  have hcols : (renameCols (drop_duplicates (dropnaOn p "id_producto"))
      [("descripcion.6", "descripcion")]).cols =
      ["id_producto", "descripcion", "precio", "id_marca_producto", "id_categoria_producto"] := by
    rw [project_eq_some hp]; rfl
  cases hopt : df.cols.contains "codigo_formato_producto" with
  | false =>
    exact renamed_take df _ _ _ p hp
  | true =>
    show (assignSeries (renameCols (drop_duplicates (dropnaOn p "id_producto"))
        [("descripcion.6", "descripcion")]) "id_formato_producto"
        (colSeries df "codigo_formato_producto")).rows.map (fun r => r.2.take 5) = _
    have hfind : (renameCols (drop_duplicates (dropnaOn p "id_producto"))
        [("descripcion.6", "descripcion")]).cols.findIdx?
        (fun x => x == "id_formato_producto") = none := by
      rw [hcols]; rfl
    rw [assign_series_take _ _ _ 5 hfind (fun r hr => (hc.2 r hr).ge)]
    exact renamed_take df _ _ _ p hp

theorem mk_detalle_pedido_take (df t : DataFrame) (h : mk_detalle_pedido df = some t) :
    t.rows.map (fun r => r.2.take 5) =
      specExtract df ["id_detalle_pedido", "id_pedido", "id_producto", "cantidad",
        "precio_unitario"] "id_detalle_pedido" := by
  obtain ⟨p, hp, rfl⟩ := Option.map_eq_some'.mp h
  have hc := core_rows df _ "id_detalle_pedido" p hp
  have hcols : (drop_duplicates (dropnaOn p "id_detalle_pedido")).cols =
      ["id_detalle_pedido", "id_pedido", "id_producto", "cantidad", "precio_unitario"] := by
    rw [project_eq_some hp]; rfl
  cases hopt : df.cols.contains "id_promocion" with
  | false =>
    show (assignConst (drop_duplicates (dropnaOn p "id_detalle_pedido")) "descuento"
        (Val.int 0)).rows.map (fun r => r.2.take 5) = _
    have hfind : (drop_duplicates (dropnaOn p "id_detalle_pedido")).cols.findIdx?
        (fun x => x == "descuento") = none := by
      rw [hcols]; rfl
    rw [assign_const_take _ _ _ 5 hfind (fun r hr => (hc.2 r hr).ge)]
    exact plain_take df _ _ p hp
  | true =>
    show (assignConst (assignSeries (drop_duplicates (dropnaOn p "id_detalle_pedido"))
        "id_promocion" (colSeries df "id_promocion")) "descuento"
        (Val.int 0)).rows.map (fun r => r.2.take 5) = _
    have hfind1 : (drop_duplicates (dropnaOn p "id_detalle_pedido")).cols.findIdx?
        (fun x => x == "id_promocion") = none := by
      rw [hcols]; rfl
    have hser := assignSeries_new_cols (drop_duplicates (dropnaOn p "id_detalle_pedido"))
      "id_promocion" (colSeries df "id_promocion") hfind1
    have hfind2 : (assignSeries (drop_duplicates (dropnaOn p "id_detalle_pedido"))
        "id_promocion" (colSeries df "id_promocion")).cols.findIdx?
        (fun x => x == "descuento") = none := by
      rw [hser, hcols]; rfl
    have hlen1 : ∀ r ∈ (assignSeries (drop_duplicates (dropnaOn p "id_detalle_pedido"))
        "id_promocion" (colSeries df "id_promocion")).rows, 5 ≤ r.2.length := by
      rw [assignSeries_new_rows _ _ _ hfind1]
      exact assign_rows_le _ 5 _ (fun r hr => (hc.2 r hr).ge)
    rw [assign_const_take _ _ _ 5 hfind2 hlen1]
    rw [assign_series_take _ _ _ 5 hfind1 (fun r hr => (hc.2 r hr).ge)]
    exact plain_take df _ _ p hp

theorem mk_detalle_no_promo (df p : DataFrame)
    (hp : project df ["id_detalle_pedido", "id_pedido", "id_producto", "cantidad",
      "precio_unitario"] = some p)
    (hopt : df.cols.contains "id_promocion" = false) :
    mk_detalle_pedido df =
      some (assignConst (drop_duplicates (dropnaOn p "id_detalle_pedido")) "descuento"
        (Val.int 0)) := by
  unfold mk_detalle_pedido
  rw [hp, hopt]; rfl

theorem mk_producto_no_formato (df p : DataFrame)
    (hp : project df ["id_producto", "descripcion.6", "precio", "id_marca_producto",
      "id_categoria_producto"] = some p)
    (hopt : df.cols.contains "codigo_formato_producto" = false) :
    mk_producto df =
      some (renameCols (drop_duplicates (dropnaOn p "id_producto"))
        [("descripcion.6", "descripcion")]) := by
  unfold mk_producto
  rw [hp, hopt]; rfl

/-! ## Claim theorems -/

/-- **C2 counterexample**: the load order is not a topological sort of the
full foreign-key graph of the DDL: `producto` carries a foreign key to
`formato_producto`, yet `formato_producto` never appears in the load order,
so `producto` does not appear after every table it references. -/
theorem load_order_not_full_topo_counterexample :
    ("producto", "formato_producto") ∈ schema_fks ∧ "producto" ∈ load_order ∧
    "formato_producto" ∉ load_order ∧
    ¬ (∀ p ∈ schema_fks, p.1 ∈ load_order →
        p.2 ∈ load_order ∧ loadPos p.2 < loadPos p.1) := by decide

/-- **C2 (amended)**: restricted to tables that appear in the load order, the
order is a valid topological sort of the DDL's foreign-key graph — whenever
a table of the order references another table of the order, the referenced
table comes strictly earlier; the DDL additionally declares
`formato_producto`, `tipo_promocion` and `promocion`, which the load order
omits entirely. -/
theorem load_order_topo_restricted :
    (∀ p ∈ schema_fks, p.1 ∈ load_order → p.2 ∈ load_order →
      loadPos p.2 < loadPos p.1) ∧
    "formato_producto" ∉ load_order ∧ "tipo_promocion" ∉ load_order ∧
    "promocion" ∉ load_order ∧
    (∀ n ∈ load_order, n ∈ schema_tables) := by decide

theorem load_order_topo_restricted_witness :
    ("trabajador", "cargo_trabajador") ∈ schema_fks ∧
    loadPos "cargo_trabajador" < loadPos "trabajador" :=
  ⟨by decide,
   load_order_topo_restricted.1 ("trabajador", "cargo_trabajador")
     (by decide) (by decide) (by decide)⟩

/-- **C3**: the loader records an outcome for exactly the load-order tables
that have a candidate dataset, in load order, whatever the store does (so a
failed insert never prevents later tables from being attempted); and an
insert failure for a table is recorded as that table's failure result,
carrying the underlying cause.  The loader is a total function of the store's
answers: no exception escapes it. -/
theorem load_isolates_failures (tables_data : List (String × DataFrame)) (store : Store) :
    ((load_data_to_database tables_data store).map Prod.fst =
      load_order.filter (fun n => (alist_find tables_data n).isSome)) ∧
    (∀ n t e, n ∈ load_order → alist_find tables_data n = some t →
      store n (stripId n t) = Except.error e →
      (n, LoadResult.err e) ∈ load_data_to_database tables_data store) :=
  ⟨loadTables_keys store tables_data load_order,
   fun n t e hn hf hs => loadTables_err_mem store tables_data n t e hf hs load_order hn⟩

theorem load_isolates_failures_witness :
    ((load_data_to_database wTables wStore).map Prod.fst =
      load_order.filter (fun n => (alist_find wTables n).isSome)) ∧
    ("producto", LoadResult.err "type error") ∈ load_data_to_database wTables wStore :=
  ⟨(load_isolates_failures wTables wStore).1,
   (load_isolates_failures wTables wStore).2 "producto" wProducto "type error"
     (by decide) (by decide) rfl⟩

/-- **C5 counterexample**: the validator does not query every loaded table:
`tipo_documento` is in the load order but `G2.tipo_documento` is not among
the tables the validator checks. -/
theorem validator_misses_load_order_counterexample :
    "tipo_documento" ∈ load_order ∧ "G2.tipo_documento" ∉ tables_to_check ∧
    ¬ (∀ n ∈ load_order, ("G2." ++ n) ∈ tables_to_check) := by decide

/-- **C5 (amended)**: the validator queries exactly five tables —
`cliente`, `trabajador`, `producto`, `pedido`, `detalle_pedido`, each under
the `G2.` schema prefix — every one of which is a load-order table; the six
reference tables of the load order are not queried. -/
theorem validator_checks_subset :
    tables_to_check =
      (["cliente", "trabajador", "producto", "pedido", "detalle_pedido"]).map
        (fun n => "G2." ++ n) ∧
    (∀ q ∈ tables_to_check, ∃ n ∈ load_order, q = "G2." ++ n) ∧
    (load_order.filter (fun n => !(tables_to_check.contains ("G2." ++ n)))) =
      ["tipo_documento", "canal_cliente", "tipo_pago", "cargo_trabajador",
       "marca_producto", "categoria_producto"] := by decide

theorem validator_checks_subset_witness :
    ∃ n ∈ load_order, "G2.cliente" = "G2." ++ n :=
  validator_checks_subset.2.1 "G2.cliente" (by decide)

/-- **C6**: extraction is deterministic — it is a pure function of the source
frame, so running it twice on equal sources yields identical candidate
datasets (same tables, same rows, same order). -/
theorem extract_deterministic (df1 df2 : DataFrame) (h : df1 = df2) :
    extract_table_data df1 = extract_table_data df2 := by rw [h]

theorem extract_deterministic_witness :
    extract_table_data sampleDf = extract_table_data sampleDf :=
  extract_deterministic sampleDf sampleDf rfl

/-- **C7**: before inserting, the loader strips the table's primary-key
column `id_<table>`: the frame handed to the store never contains it;
candidates lacking that column are passed unchanged; and the outcome the
loader records for a table is exactly the store's answer on the stripped
frame. -/
theorem loader_strips_primary_key :
    (∀ name df, ("id_" ++ name) ∉ (stripId name df).cols) ∧
    (∀ name df, ("id_" ++ name) ∉ df.cols → stripId name df = df) ∧
    (∀ tables_data store n t, n ∈ load_order → alist_find tables_data n = some t →
      alist_find (load_data_to_database tables_data store) n =
        some (insertResult (stripId n t).rows.length (store n (stripId n t)))) := by
  refine ⟨?_, ?_, ?_⟩
  · intro name df
    by_cases hmem : ("id_" ++ name) ∈ df.cols
    · simp only [stripId]
      rw [if_pos (by simpa using hmem)]
      simp [dropColumn, List.mem_filter]
    · simp only [stripId]
      rw [if_neg (by simpa using hmem)]
      exact hmem
  · intro name df hmem
    simp only [stripId]
    rw [if_neg (by simpa using hmem)]
  · intro tables_data store n t hn hf
    exact loadTables_lookup store tables_data n t hf load_order hn

theorem loader_strips_primary_key_witness :
    "id_producto" ∉ (stripId "producto" wProducto).cols ∧
    alist_find (load_data_to_database wTables wStore) "cliente" =
      some (insertResult (stripId "cliente" wCliente).rows.length
        (wStore "cliente" (stripId "cliente" wCliente))) :=
  ⟨loader_strips_primary_key.1 "producto" wProducto,
   loader_strips_primary_key.2.2 wTables wStore "cliente" wCliente (by decide) (by decide)⟩

/-- **C8**: the validator issues one count query per listed table and returns
an entry for each — the recorded value being the count when the query
returns, and the error when it raises — so a failing query for one table
never prevents the remaining tables from being queried. -/
theorem validate_reports_every_table (query : QueryFn) :
    ((validate_data_integrity query).map Prod.fst = tables_to_check) ∧
    (∀ t, t ∈ tables_to_check →
      alist_find (validate_data_integrity query) t =
        some (match query t with
          | .ok n => CountResult.count n
          | .error e => CountResult.err e)) := by
  constructor
  · show List.map Prod.fst (List.map _ tables_to_check) = tables_to_check
    rw [List.map_map]
    exact List.map_id' tables_to_check
  · intro t ht
    exact alist_find_map_self _ tables_to_check t ht

theorem validate_reports_every_table_witness :
    ((validate_data_integrity qFail).map Prod.fst = tables_to_check) ∧
    alist_find (validate_data_integrity qFail) "G2.producto" =
      some (CountResult.err "down") :=
  ⟨(validate_reports_every_table qFail).1,
   by simpa [qFail] using (validate_reports_every_table qFail).2 "G2.producto" (by decide)⟩

/-- **C9**: extraction never mutates the raw source records — every statement
of `extract_table_data` writes only candidate frames (themselves fresh
projections) or the `tables` dictionary, so the source frame after the call
is exactly the source frame before it. -/
theorem extract_preserves_source (s s' : ExtractState) (h : extractRun s = some s') :
    s'.df = s.df := by
  unfold extractRun at h
  obtain ⟨t1, _, h⟩ := Option.bind_eq_some.mp h
  obtain ⟨t2, _, h⟩ := Option.bind_eq_some.mp h
  obtain ⟨t3, _, h⟩ := Option.bind_eq_some.mp h
  obtain ⟨t4, _, h⟩ := Option.bind_eq_some.mp h
  obtain ⟨t5, _, h⟩ := Option.bind_eq_some.mp h
  obtain ⟨t6, _, h⟩ := Option.bind_eq_some.mp h
  obtain ⟨t7, _, h⟩ := Option.bind_eq_some.mp h
  obtain ⟨t8, _, h⟩ := Option.bind_eq_some.mp h
  obtain ⟨t9, _, h⟩ := Option.bind_eq_some.mp h
  obtain ⟨t10, _, h⟩ := Option.bind_eq_some.mp h
  obtain ⟨t11, _, h⟩ := Option.bind_eq_some.mp h
  have hs := Option.some.inj h
  subst hs
  rfl

theorem extract_preserves_source_witness : sampleState.df = sampleDf :=
  extract_preserves_source { df := sampleDf, tables := [] } sampleState sample_run_eq

/-- **C10**: whenever extraction succeeds (all required source columns are
present), the produced mapping has exactly the eleven target tables as keys,
in a fixed order, independently of the row contents. -/
theorem extract_yields_all_tables (df : DataFrame) (ts : List (String × DataFrame))
    (h : extract_table_data df = some ts) :
    ts.map Prod.fst = ["tipo_documento", "canal_cliente", "tipo_pago",
      "cargo_trabajador", "marca_producto", "categoria_producto", "trabajador",
      "cliente", "producto", "pedido", "detalle_pedido"] := by
  obtain ⟨t1, t2, t3, t4, t5, t6, t7, t8, t9, t10, t11,
    _, _, _, _, _, _, _, _, _, _, _, hts⟩ := extract_elim df ts h
  subst hts
  rfl

theorem extract_yields_all_tables_witness :
    sampleTables.map Prod.fst = ["tipo_documento", "canal_cliente", "tipo_pago",
      "cargo_trabajador", "marca_producto", "categoria_producto", "trabajador",
      "cliente", "producto", "pedido", "detalle_pedido"] :=
  extract_yields_all_tables sampleDf sampleTables sample_extract_eq

/-- **C1**: for every target table, extraction equals the specification's
reference pipeline — project each source record onto the table's declared
source columns, drop every projected record whose primary-identifying column
(the table's `id_<table>` column) is missing, deduplicate the remaining
records by full equality of all projected columns keeping the first
occurrence, and list the survivors in first-seen source order.  The candidate
frame's rows, restricted to the projected columns (derived default columns
are appended after them), are exactly the reference pipeline's rows. -/
theorem extract_refines_spec_pipeline (df : DataFrame) (ts : List (String × DataFrame))
    (h : extract_table_data df = some ts) :
    ∀ s ∈ tableSpecs, s.2.2 = "id_" ++ s.1 ∧
      ∃ d, alist_find ts s.1 = some d ∧
        d.rows.map (fun r => r.2.take s.2.1.length) = specExtract df s.2.1 s.2.2 := by
  obtain ⟨t1, t2, t3, t4, t5, t6, t7, t8, t9, t10, t11, h1, h2, h3, h4, h5, h6, h7, h8,
    h9, h10, h11, hts⟩ := extract_elim df ts h
  subst hts
  intro s hs
  simp only [tableSpecs, List.mem_cons, List.not_mem_nil, or_false] at hs
  rcases hs with rfl | rfl | rfl | rfl | rfl | rfl | rfl | rfl | rfl | rfl | rfl
  · exact ⟨by decide, t1, by simp [alist_find, List.find?_cons],
      mk_tipo_documento_take df t1 h1⟩
  · exact ⟨by decide, t2, by simp [alist_find, List.find?_cons],
      mk_canal_cliente_take df t2 h2⟩
  · exact ⟨by decide, t3, by simp [alist_find, List.find?_cons],
      mk_tipo_pago_take df t3 h3⟩
  · exact ⟨by decide, t4, by simp [alist_find, List.find?_cons],
      mk_cargo_trabajador_take df t4 h4⟩
  · exact ⟨by decide, t5, by simp [alist_find, List.find?_cons],
      mk_marca_producto_take df t5 h5⟩
  · exact ⟨by decide, t6, by simp [alist_find, List.find?_cons],
      mk_categoria_producto_take df t6 h6⟩
  · exact ⟨by decide, t7, by simp [alist_find, List.find?_cons],
      mk_trabajador_take df t7 h7⟩
  · exact ⟨by decide, t8, by simp [alist_find, List.find?_cons],
      mk_cliente_take df t8 h8⟩
  · exact ⟨by decide, t9, by simp [alist_find, List.find?_cons],
      mk_producto_take df t9 h9⟩
  · exact ⟨by decide, t10, by simp [alist_find, List.find?_cons],
      mk_pedido_take df t10 h10⟩
  · exact ⟨by decide, t11, by simp [alist_find, List.find?_cons],
      mk_detalle_pedido_take df t11 h11⟩

theorem extract_refines_spec_pipeline_witness :
    ∃ d, alist_find sampleTables "cliente" = some d ∧
      d.rows.map (fun r => r.2.take 8) =
        specExtract sampleDf ["id_cliente", "nombre_cliente", "numero_documento",
          "correo.1", "telefono.2", "direccion", "id_tipo_documento", "id_canal_cliente"]
          "id_cliente" :=
  (extract_refines_spec_pipeline sampleDf sampleTables sample_extract_eq
    ("cliente", (["id_cliente", "nombre_cliente", "numero_documento", "correo.1",
      "telefono.2", "direccion", "id_tipo_documento", "id_canal_cliente"], "id_cliente"))
    (by decide)).2

/-- **C4 counterexample**: `sampleDf` lacks both optional source columns
(`id_promocion`, `codigo_formato_producto`); extraction succeeds, but the
`detalle_pedido` candidate has no `id_promocion` column at all (despite
having rows) and the `producto` candidate has no `id_formato_producto`
column — the optional columns are not populated with a default. -/
theorem absent_optional_column_counterexample :
    sampleDf.cols.contains "id_promocion" = false ∧
    sampleDf.cols.contains "codigo_formato_producto" = false ∧
    sampleDetalle.map (fun d => (d.cols.contains "id_promocion", d.rows.length)) =
      some (false, 2) ∧
    sampleProducto.map (fun q => q.cols.contains "id_formato_producto") = some false := by
  decide

/-- **C4 (amended)**: when an optional mapped source column is entirely
absent, extraction still succeeds and produces the table, but the optional
candidate column (`id_promocion` on `detalle_pedido`, `id_formato_producto`
on `producto`) is omitted entirely rather than filled with a default; only
the unconditionally added columns are uniformly default-populated
(`descuento = 0` on every `detalle_pedido` row). -/
theorem absent_optional_column_omitted (df : DataFrame) (ts : List (String × DataFrame))
    (h : extract_table_data df = some ts) :
    (df.cols.contains "id_promocion" = false →
      ∃ d, alist_find ts "detalle_pedido" = some d ∧
        d.cols.contains "id_promocion" = false ∧
        ∀ r ∈ d.rows, valAt d.cols r.2 "descuento" = Val.int 0) ∧
    (df.cols.contains "codigo_formato_producto" = false →
      ∃ q, alist_find ts "producto" = some q ∧
        q.cols.contains "id_formato_producto" = false) := by
  obtain ⟨t1, t2, t3, t4, t5, t6, t7, t8, t9, t10, t11, h1, h2, h3, h4, h5, h6, h7, h8,
    h9, h10, h11, hts⟩ := extract_elim df ts h
  subst hts
  constructor
  · intro hopt
    obtain ⟨p, hp, _⟩ := Option.map_eq_some'.mp h11
    have hd := mk_detalle_no_promo df p hp hopt
    rw [h11] at hd
    have ht := Option.some.inj hd
    subst ht
    have hc := core_rows df _ "id_detalle_pedido" p hp
    have hcols : (drop_duplicates (dropnaOn p "id_detalle_pedido")).cols =
        ["id_detalle_pedido", "id_pedido", "id_producto", "cantidad", "precio_unitario"] := by
      rw [project_eq_some hp]; rfl
    have hfind : (drop_duplicates (dropnaOn p "id_detalle_pedido")).cols.findIdx?
        (fun x => x == "descuento") = none := by
      rw [hcols]; rfl
    refine ⟨assignConst (drop_duplicates (dropnaOn p "id_detalle_pedido")) "descuento"
      (Val.int 0), by simp [alist_find, List.find?_cons], ?_, ?_⟩
    · rw [assignConst_new_cols _ _ _ hfind, hcols]; rfl
    · intro r hr
      rw [assignConst_new_rows _ _ _ hfind] at hr
      obtain ⟨x, hx, rfl⟩ := List.mem_map.mp hr
      have hfind5 : (assignConst (drop_duplicates (dropnaOn p "id_detalle_pedido"))
          "descuento" (Val.int 0)).cols.findIdx? (fun x => x == "descuento") = some 5 := by
        rw [assignConst_new_cols _ _ _ hfind, hcols]; rfl
      unfold valAt
      rw [hfind5]
      exact getD_append_len x.2 (Val.int 0) Val.na 5 (hc.2 x hx)
  · intro hopt
    obtain ⟨p, hp, _⟩ := Option.map_eq_some'.mp h9
    have hd := mk_producto_no_formato df p hp hopt
    rw [h9] at hd
    have ht := Option.some.inj hd
    subst ht
    have hcols : (renameCols (drop_duplicates (dropnaOn p "id_producto"))
        [("descripcion.6", "descripcion")]).cols =
        ["id_producto", "descripcion", "precio", "id_marca_producto",
         "id_categoria_producto"] := by
      rw [project_eq_some hp]; rfl
    refine ⟨renameCols (drop_duplicates (dropnaOn p "id_producto"))
      [("descripcion.6", "descripcion")], by simp [alist_find, List.find?_cons], ?_⟩
    rw [hcols]; rfl

theorem absent_optional_column_omitted_witness :
    (∃ d, alist_find sampleTables "detalle_pedido" = some d ∧
      d.cols.contains "id_promocion" = false ∧
      ∀ r ∈ d.rows, valAt d.cols r.2 "descuento" = Val.int 0) ∧
    (∃ q, alist_find sampleTables "producto" = some q ∧
      q.cols.contains "id_formato_producto" = false) :=
  ⟨(absent_optional_column_omitted sampleDf sampleTables sample_extract_eq).1 (by decide),
   (absent_optional_column_omitted sampleDf sampleTables sample_extract_eq).2 (by decide)⟩
